import Mathlib

/-!
Verification of the LienOS frontend API client and lien-form validation.

The definitions below are a shallow embedding of the JavaScript source:
  - the api client (class ApiClient with USE_MOCK_DATA = true), including its
    in-memory mock store of liens and payments, tenant handling, request
    headers, interest calculation, payment recording and deletion paths;
  - the AddLienPage form validation (validateForm);
  - the response-shape normalization performed by getLiens.

Modelling conventions: JavaScript numbers are embedded as exact rationals,
dates as integer epoch milliseconds (string dates such as '2024-05-15' parse
to UTC midnight, embedded through dateMs), thrown errors as Option.none, and
mutation of the client's module-level mock state as explicit state passing on
a ClientState value.
-/

namespace LienOS

/-- Milliseconds per day, the divisor 1000*60*60*24 used by the source. -/
def msPerDay : ℤ := 86400000

/-- Days since the civil epoch era origin for a Gregorian date (Hinnant's
civil-from-days algorithm, restricted to nonnegative years). -/
def civilDays (y m d : ℕ) : ℕ :=
  let y' := if m ≤ 2 then y - 1 else y
  let era := y' / 400
  let yoe := y' % 400
  let mp := (m + 9) % 12
  let doy := (153 * mp + 2) / 5 + d - 1
  let doe := yoe * 365 + yoe / 4 - yoe / 100 + doy
  era * 146097 + doe

/-- Epoch milliseconds (UTC midnight) of a calendar date, as produced by
JavaScript's Date parsing of a 'YYYY-MM-DD' string. -/
def dateMs (y m d : ℕ) : ℤ :=
  ((civilDays y m d : ℤ) - 719468) * msPerDay

/-- A lien record as stored in the client's mock data.  Presentation-only
fields (property_address, parcel_id, state, premium, tax_year) are omitted;
the fields below are the ones the embedded operations read. -/
structure Lien where
  id : String
  certificate_number : String
  county : String
  purchase_amount : ℚ
  interest_rate : ℚ
  purchase_date : ℤ
  redemption_deadline : ℤ
  status : String
deriving Repr, DecidableEq

/-- A payment record as pushed into mockData.payments. -/
structure Payment where
  date : ℤ
  amount : ℚ
  method : String
deriving Repr, DecidableEq

/-- mockData.liens from the api client source (dates via dateMs). -/
def mockLiens : List Lien :=
  [⟨"lien-001", "MD-2024-0847", "Miami-Dade", 8500, 18, dateMs 2024 5 15, dateMs 2026 5 15, "active"⟩,
   ⟨"lien-002", "BR-2024-1234", "Broward", 12000, 18, dateMs 2024 3 22, dateMs 2026 3 22, "active"⟩,
   ⟨"lien-003", "PB-2024-0567", "Palm Beach", 5200, 18, dateMs 2024 6 10, dateMs 2026 6 10, "active"⟩,
   ⟨"lien-004", "MD-2024-0923", "Miami-Dade", 15000, 18, dateMs 2024 4 8, dateMs 2026 4 8, "active"⟩,
   ⟨"lien-005", "BR-2023-4521", "Broward", 7800, 18, dateMs 2023 11 20, dateMs 2025 11 20, "redeemed"⟩,
   ⟨"lien-006", "PB-2024-0789", "Palm Beach", 9500, 18, dateMs 2024 2 14, dateMs 2026 2 14, "active"⟩,
   ⟨"lien-007", "MD-2024-1156", "Miami-Dade", 4200, 18, dateMs 2024 7 3, dateMs 2026 7 3, "active"⟩,
   ⟨"lien-008", "BR-2024-2345", "Broward", 6300, 18, dateMs 2024 1 25, dateMs 2026 1 25, "active"⟩,
   ⟨"lien-009", "PB-2023-3456", "Palm Beach", 3500, 18, dateMs 2023 9 18, dateMs 2025 9 18, "redeemed"⟩,
   ⟨"lien-010", "MD-2024-0234", "Miami-Dade", 2800, 18, dateMs 2024 8 12, dateMs 2026 8 12, "active"⟩,
   ⟨"lien-011", "BR-2024-5678", "Broward", 11200, 18, dateMs 2024 4 30, dateMs 2026 4 30, "active"⟩,
   ⟨"lien-012", "PB-2024-6789", "Palm Beach", 2500, 18, dateMs 2024 6 28, dateMs 2026 6 28, "active"⟩]

/-- mockData.payments from the api client source. -/
def mockPayments : List (String × List Payment) :=
  [("lien-005", [⟨dateMs 2024 8 15, 8760, "Redemption"⟩]),
   ("lien-009", [⟨dateMs 2024 6 22, 4025, "Redemption"⟩])]

/-- The DEFAULT_TENANT constant the ApiClient constructor assigns. -/
def DEFAULT_TENANT : String := "demo-user"

/-- The mutable state of the ApiClient module: the instance field tenantId
plus the module-level mock store it reads and writes. -/
structure ClientState where
  tenantId : String
  liens : List Lien
  payments : List (String × List Payment)
deriving Repr, DecidableEq

/-- The state right after new ApiClient(): tenantId = DEFAULT_TENANT and the
pristine mock store. -/
def initialClient : ClientState :=
  ⟨DEFAULT_TENANT, mockLiens, mockPayments⟩

/-- ApiClient.setTenantId. -/
def setTenantId (s : ClientState) (t : String) : ClientState :=
  ⟨t, s.liens, s.payments⟩

/-- The header object built by ApiClient.request: Content-Type and
X-Tenant-ID, then the caller's options.headers spread over them. -/
def requestHeaders (tenantId : String) (extra : List (String × String)) :
    List (String × String) :=
  [("Content-Type", "application/json"), ("X-Tenant-ID", tenantId)] ++ extra

/-- Lookup in a header object built by object-spread: a later binding of the
same key overrides an earlier one, so the last matching entry wins. -/
def headerLookup (hs : List (String × String)) (k : String) : Option String :=
  (hs.reverse.find? (fun e => e.1 = k)).map (fun e => e.2)

/-- ApiClient.getLiens, mock branch: copy of mockData.liens, filtered by
params.status when present and not 'all', truncated by params.limit when
present. -/
def getLiens (s : ClientState) (statusParam : Option String)
    (limitParam : Option ℕ) : List Lien :=
  let l1 :=
    match statusParam with
    | some st => if st = "all" then s.liens else s.liens.filter (fun l => l.status = st)
    | none => s.liens
  match limitParam with
  | some n => l1.take n
  | none => l1

/-- ApiClient.getLien, mock branch: find by id, throwing (none) when the
lien is absent. -/
def getLien (s : ClientState) (lienId : String) : Option Lien :=
  s.liens.find? (fun l => l.id = lienId)

/-- ApiClient.createLien, mock branch: push the new lien (whose id the
source composes from the clock, passed here already assembled) onto
mockData.liens and return it. -/
def createLien (s : ClientState) (newLien : Lien) : Lien × ClientState :=
  (newLien, ⟨s.tenantId, s.liens ++ [newLien], s.payments⟩)

/-- Removal of the first list entry whose id matches, as performed by
findIndex followed by splice(index, 1); none when no entry matches. -/
def removeFirstById : List Lien → String → Option (List Lien)
  | [], _ => none
  | l :: ls, lienId =>
    if l.id = lienId then some ls
    else (removeFirstById ls lienId).map (fun r => l :: r)

/-- ApiClient.deleteLien, mock branch: findIndex by id, throw (none) when
absent, otherwise splice the record out of mockData.liens. -/
def deleteLien (s : ClientState) (lienId : String) : Option ClientState :=
  (removeFirstById s.liens lienId).map (fun ls => ⟨s.tenantId, ls, s.payments⟩)

/-- The object returned by ApiClient.calculateInterest. -/
structure InterestResult where
  lien_id : String
  days_held : ℤ
  accrued_interest : ℚ
  total_value : ℚ
  calculation_date : ℤ
deriving Repr, DecidableEq

/-- ApiClient.calculateInterest, mock branch.  The parameter today is the
value of new Date() at the moment of the call, i.e. the ambient clock
reading, in epoch milliseconds: the source takes no as-of argument.
daysHeld is Math.floor of the millisecond difference over a day, which is
floor division on integers. -/
def calculateInterest (s : ClientState) (lienId : String) (today : ℤ) :
    Option InterestResult :=
  match getLien s lienId with
  | none => none
  | some l =>
    let daysHeld : ℤ := (today - l.purchase_date) / msPerDay
    let dailyRate : ℚ := l.interest_rate / 100 / 365
    let accruedInterest : ℚ := l.purchase_amount * dailyRate * (daysHeld : ℚ)
    some ⟨lienId, daysHeld, accruedInterest, l.purchase_amount + accruedInterest, today⟩

/-- ApiClient.getPayments, mock branch: mockData.payments[lienId] or []. -/
def getPayments (s : ClientState) (lienId : String) : List Payment :=
  ((s.payments.find? (fun e => e.1 = lienId)).map (fun e => e.2)).getD []

/-- Update of the mock payments object by recordPayment: create the key with
an empty list when absent, then push the payment. -/
def pushPayment : List (String × List Payment) → String → Payment →
    List (String × List Payment)
  | [], lienId, p => [(lienId, [p])]
  | e :: es, lienId, p =>
    if e.1 = lienId then (e.1, e.2 ++ [p]) :: es
    else e :: pushPayment es lienId p

/-- ApiClient.recordPayment, mock branch: append the payment data to the
lien's payment list and return the data unchanged. -/
def recordPayment (s : ClientState) (lienId : String) (p : Payment) :
    Payment × ClientState :=
  (p, ⟨s.tenantId, s.liens, pushPayment s.payments lienId p⟩)

/-- The mock lien-001 record, used by the concrete examples below. -/
def lien001 : Lien :=
  ⟨"lien-001", "MD-2024-0847", "Miami-Dade", 8500, 18, dateMs 2024 5 15,
   dateMs 2026 5 15, "active"⟩

/-- Concrete evaluation of the interest calculation on the mock lien-001
(8500 at 18 percent, purchased 2024-05-15) exactly 365 days later. -/
lemma lien001_interest_at_365 :
    calculateInterest initialClient "lien-001" (dateMs 2025 5 15) =
      some ⟨"lien-001", 365, 1530, 10030, dateMs 2025 5 15⟩ := by
  have h1 : getLien initialClient "lien-001" = some lien001 := by decide
  have hd : (dateMs 2025 5 15 - dateMs 2024 5 15) / msPerDay = (365 : ℤ) := by decide
  simp only [calculateInterest, h1, lien001]
  norm_num [hd]

/-- C2: for every stored lien, the interest calculation evaluated with clock
reading T returns days_held equal to the floored whole-day difference between
the purchase date and T, accrued interest P * (R / 100 / 365) * days_held
(simple, non-compounding), and total_value P plus that interest; and on the
mock lien-001 (P = 8500, R = 18, purchased 2024-05-15) evaluated exactly 365
days later it returns days_held = 365, interest = 1530 and total = 10030. -/
theorem calculateInterest_formula :
    (∀ (s : ClientState) (lienId : String) (t : ℤ) (l : Lien) (r : InterestResult),
      getLien s lienId = some l → calculateInterest s lienId t = some r →
      r.days_held = (t - l.purchase_date) / msPerDay ∧
      r.accrued_interest =
        l.purchase_amount * (l.interest_rate / 100 / 365) * (r.days_held : ℚ) ∧
      r.total_value = l.purchase_amount + r.accrued_interest) ∧
    calculateInterest initialClient "lien-001" (dateMs 2025 5 15) =
      some ⟨"lien-001", 365, 1530, 10030, dateMs 2025 5 15⟩ := by
  constructor
  · intro s lienId t l r hfind hcalc
    rw [calculateInterest, hfind] at hcalc
    simp only [Option.some.injEq] at hcalc
    subst hcalc
    exact ⟨rfl, rfl, rfl⟩
  · exact lien001_interest_at_365

/-- Witness for C2: the general part of the theorem instantiated on the mock
lien-001 at the clock reading 2025-05-15. -/
theorem calculateInterest_formula_witness :
    (365 : ℤ) = (dateMs 2025 5 15 - lien001.purchase_date) / msPerDay ∧
    (1530 : ℚ) = lien001.purchase_amount *
      (lien001.interest_rate / 100 / 365) * ((365 : ℤ) : ℚ) ∧
    (10030 : ℚ) = lien001.purchase_amount + 1530 := by
  have h := calculateInterest_formula.1 initialClient "lien-001"
    (dateMs 2025 5 15) lien001
    ⟨"lien-001", 365, 1530, 10030, dateMs 2025 5 15⟩
    (by decide) calculateInterest_formula.2
  exact h

/-- C5 counterexample: invoked on the same client state with the same explicit
input (lien-001) but at two different moments, the interest calculation
returns different results: the computation reads the ambient clock
(new Date()) rather than depending only on its explicit inputs. -/
theorem calculateInterest_clock_dependence_counterexample :
    calculateInterest initialClient "lien-001" (dateMs 2024 5 16) ≠
      calculateInterest initialClient "lien-001" (dateMs 2024 5 17) := by
  intro h
  have h1 : getLien initialClient "lien-001" = some lien001 := by decide
  have hdays := congrArg (fun o => (Option.map InterestResult.days_held o).getD 0) h
  rw [calculateInterest, calculateInterest, h1] at hdays
  simp only [Option.map_some, Option.getD_some] at hdays
  have e1 : (dateMs 2024 5 16 - lien001.purchase_date) / msPerDay = (1 : ℤ) := by decide
  have e2 : (dateMs 2024 5 17 - lien001.purchase_date) / msPerDay = (2 : ℤ) := by decide
  rw [e1, e2] at hdays
  exact absurd hdays (by decide)

/-- C5 amended: the interest calculation is a pure function of the looked-up
lien record and the clock reading at invocation; it reads no other state of
the client, so two invocations made against states holding the same record
for the queried id, at the same clock instant, return identical results. -/
theorem calculateInterest_deterministic :
    ∀ (s₁ s₂ : ClientState) (lienId : String) (t : ℤ),
      getLien s₁ lienId = getLien s₂ lienId →
      calculateInterest s₁ lienId t = calculateInterest s₂ lienId t := by
  intro s₁ s₂ lienId t h
  rw [calculateInterest, calculateInterest, h]

/-- Witness for C5 amended: two clients that differ in tenant id but hold the
same mock store agree on the calculation at a fixed clock instant. -/
theorem calculateInterest_deterministic_witness :
    calculateInterest initialClient "lien-001" (dateMs 2025 5 15) =
      calculateInterest (setTenantId initialClient "tenant-b") "lien-001"
        (dateMs 2025 5 15) :=
  calculateInterest_deterministic initialClient
    (setTenantId initialClient "tenant-b") "lien-001" (dateMs 2025 5 15) rfl

/-- C6 counterexample: evaluated one day before lien-001's purchase date the
calculation does not fail: it returns a result with days_held = -1 (negative)
and a negative accrued interest, instead of an InvalidAsOfDate error. -/
theorem calculateInterest_negative_days_counterexample :
    calculateInterest initialClient "lien-001" (dateMs 2024 5 14) =
      some ⟨"lien-001", -1, -306/73, 620194/73, dateMs 2024 5 14⟩ ∧
    (-1 : ℤ) < 0 := by
  refine ⟨?_, by decide⟩
  have h1 : getLien initialClient "lien-001" = some lien001 := by decide
  have hd : (dateMs 2024 5 14 - dateMs 2024 5 15) / msPerDay = (-1 : ℤ) := by decide
  simp only [calculateInterest, h1, lien001]
  norm_num [hd]

/-- C6 amended: the interest calculation performs no as-of validation.  It
fails only when the lien id is unknown; whenever the lien is found it
succeeds, and the returned days_held is negative exactly when the clock
reading precedes the purchase date. -/
theorem calculateInterest_no_asof_validation :
    ∀ (s : ClientState) (lienId : String) (t : ℤ),
      (calculateInterest s lienId t = none ↔ getLien s lienId = none) ∧
      (∀ l : Lien, getLien s lienId = some l →
        ∃ r : InterestResult, calculateInterest s lienId t = some r ∧
          (r.days_held < 0 ↔ t < l.purchase_date)) := by
  intro s lienId t
  constructor
  · cases h : getLien s lienId <;> simp [calculateInterest, h]
  · intro l hl
    refine ⟨_, by rw [calculateInterest, hl], ?_⟩
    show (t - l.purchase_date) / msPerDay < 0 ↔ t < l.purchase_date
    rw [msPerDay]
    omega

/-- Witness for C6 amended: at one day before lien-001's purchase date the
calculation succeeds with a negative days_held. -/
theorem calculateInterest_no_asof_validation_witness :
    ∃ r : InterestResult,
      calculateInterest initialClient "lien-001" (dateMs 2024 5 14) = some r ∧
        (r.days_held < 0 ↔ dateMs 2024 5 14 < lien001.purchase_date) :=
  (calculateInterest_no_asof_validation initialClient "lien-001"
    (dateMs 2024 5 14)).2 lien001 (by decide)

/-- A fresh lien used by the tenant-visibility counterexample. -/
def lienX : Lien :=
  ⟨"lien-x", "XX-2025-0001", "Miami-Dade", 1000, 18, dateMs 2025 1 1,
   dateMs 2027 1 1, "active"⟩

/-- C1 counterexample: a lien created while the client carries tenant
identifier tenant-a is returned by getLiens after the identifier is switched
to tenant-b: the mock read path never filters on the tenant identifier, so a
query under one tenant returns a record created under another. -/
theorem tenant_isolation_counterexample :
    (setTenantId initialClient "tenant-a").tenantId = "tenant-a" ∧
    (setTenantId (createLien (setTenantId initialClient "tenant-a") lienX).2
        "tenant-b").tenantId = "tenant-b" ∧
    lienX ∈ getLiens
      (setTenantId (createLien (setTenantId initialClient "tenant-a") lienX).2
        "tenant-b") none none := by
  decide

/-- Helper: find? distributes over list concatenation, first list wins. -/
lemma find_concat {α : Type} (p : α → Bool) :
    ∀ (l₁ l₂ : List α),
      (l₁ ++ l₂).find? p = ((l₁.find? p).orElse (fun _ => l₂.find? p))
  | [], l₂ => by simp [Option.orElse]
  | a :: l₁, l₂ => by
    by_cases h : p a <;>
      simp [List.find?, h, find_concat p l₁ l₂, Option.orElse]

/-- C1 amended: the client forwards the current tenant identifier with every
request as the X-Tenant-ID header (when the caller-supplied headers do not
override it), delegating isolation to the backend; the mock read path itself
depends only on the stored liens list, not on the tenant identifier, so it
performs no tenant filtering of its own. -/
theorem tenant_header_forwarded_reads_tenant_blind :
    (∀ (t : String) (extra : List (String × String)),
      (∀ kv ∈ extra, kv.1 ≠ "X-Tenant-ID") →
      headerLookup (requestHeaders t extra) "X-Tenant-ID" = some t) ∧
    (∀ (s₁ s₂ : ClientState) (stp : Option String) (lp : Option ℕ),
      s₁.liens = s₂.liens → getLiens s₁ stp lp = getLiens s₂ stp lp) := by
  constructor
  · intro t extra hex
    rw [headerLookup, requestHeaders, List.reverse_append, find_concat]
    have hnone : extra.reverse.find? (fun e => e.1 = "X-Tenant-ID") = none := by
      rw [List.find?_eq_none]
      intro kv hkv
      simpa using hex kv (List.mem_reverse.mp hkv)
    rw [hnone]
    rfl
  · intro s₁ s₂ stp lp h
    unfold getLiens
    rw [h]

/-- Witness for C1 amended: instantiated with an empty caller header object
and with two clients differing only in tenant identifier. -/
theorem tenant_header_forwarded_reads_tenant_blind_witness :
    headerLookup (requestHeaders "demo-user" []) "X-Tenant-ID" =
      some "demo-user" ∧
    getLiens initialClient none none =
      getLiens (setTenantId initialClient "tenant-b") none none :=
  ⟨tenant_header_forwarded_reads_tenant_blind.1 "demo-user" [] (by simp),
   tenant_header_forwarded_reads_tenant_blind.2 initialClient
     (setTenantId initialClient "tenant-b") none none rfl⟩

/-- C8 counterexample: a freshly constructed client whose caller supplied no
tenant identifier carries the fallback value demo-user, and a request
proceeds with that defaulted identifier in its X-Tenant-ID header: nothing
fails with MissingTenant. -/
theorem default_tenant_counterexample :
    initialClient.tenantId = "demo-user" ∧
    headerLookup (requestHeaders initialClient.tenantId []) "X-Tenant-ID" =
      some "demo-user" := by
  decide

/-- C8 amended: the constructor initializes the tenant identifier to the
DEFAULT_TENANT fallback, and every request proceeds carrying some
X-Tenant-ID header value; no operation of the client fails for lack of a
tenant identifier. -/
theorem request_always_proceeds_with_tenant :
    initialClient.tenantId = DEFAULT_TENANT ∧
    ∀ (t : String) (extra : List (String × String)),
      ∃ v, headerLookup (requestHeaders t extra) "X-Tenant-ID" = some v := by
  refine ⟨rfl, ?_⟩
  intro t extra
  rw [headerLookup, requestHeaders, List.reverse_append, find_concat]
  cases h : extra.reverse.find? (fun e => e.1 = "X-Tenant-ID") with
  | none => exact ⟨t, rfl⟩
  | some e => exact ⟨e.2, rfl⟩

/-- The payment used in the redemption counterexample: exactly the accrued
total of lien-001 as of 2025-05-15. -/
def payRedemption : Payment := ⟨dateMs 2025 5 15, 10030, "Check"⟩

/-- C3 counterexample: lien-001 has no prior payments and an accrued total of
10030 as of 2025-05-15; recording a payment of 10030 dated that day leaves
the lien's status at active (no transition to redeemed, no notification
record exists in the client), and a second identical payment attempt is
recorded as well instead of failing with LienNotActive. -/
theorem recordPayment_no_redemption_counterexample :
    getPayments initialClient "lien-001" = [] ∧
    (calculateInterest initialClient "lien-001" (dateMs 2025 5 15)).map
      InterestResult.total_value = some 10030 ∧
    payRedemption.amount = 10030 ∧
    (getLien (recordPayment initialClient "lien-001" payRedemption).2
      "lien-001").map Lien.status = some "active" ∧
    getPayments
      (recordPayment (recordPayment initialClient "lien-001" payRedemption).2
        "lien-001" payRedemption).2 "lien-001" =
      [payRedemption, payRedemption] := by
  refine ⟨by decide, ?_, by decide, by decide, by decide⟩
  rw [lien001_interest_at_365]
  rfl

/-- Helper: recording a payment updates exactly the queried key of the mock
payments object, appending the new payment to its list. -/
lemma getPayments_pushPayment :
    ∀ (ps : List (String × List Payment)) (lienId : String) (p : Payment),
      (((pushPayment ps lienId p).find? (fun e => e.1 = lienId)).map
          (fun e => e.2)).getD [] =
        (((ps.find? (fun e => e.1 = lienId)).map (fun e => e.2)).getD []) ++ [p]
  | [], lienId, p => by simp [pushPayment, List.find?]
  | e :: es, lienId, p => by
    by_cases h : e.1 = lienId <;>
      simp [pushPayment, List.find?, h, getPayments_pushPayment es lienId p]

/-- C3 amended: recordPayment unconditionally appends the payment to the
lien's payment list and returns it unchanged; it checks no lien status,
computes no accrued total, transitions no lien, and rejects nothing — the
lien store is untouched and redemption handling is left to the backend. -/
theorem recordPayment_appends_only :
    ∀ (s : ClientState) (lienId : String) (p : Payment),
      (recordPayment s lienId p).1 = p ∧
      (recordPayment s lienId p).2.liens = s.liens ∧
      (recordPayment s lienId p).2.tenantId = s.tenantId ∧
      getPayments (recordPayment s lienId p).2 lienId =
        getPayments s lienId ++ [p] := by
  intro s lienId p
  exact ⟨rfl, rfl, rfl, getPayments_pushPayment s.payments lienId p⟩

/-- C7 counterexample: deleteLien on lien-001 physically removes the record
from the mock store: the lien is no longer retrievable afterwards and the
store shrinks from 12 records to 11. -/
theorem deleteLien_hard_delete_counterexample :
    (deleteLien initialClient "lien-001").map
      (fun s => getLien s "lien-001") = some none ∧
    (deleteLien initialClient "lien-001").map
      (fun s => s.liens.length) = some 11 ∧
    initialClient.liens.length = 12 := by
  decide

/-- Helper: removal succeeds exactly when a matching record exists. -/
lemma removeFirstById_isSome :
    ∀ (ls : List Lien) (lienId : String),
      (removeFirstById ls lienId).isSome ↔ ∃ l ∈ ls, l.id = lienId
  | [], lienId => by simp [removeFirstById]
  | l :: ls, lienId => by
    by_cases h : l.id = lienId <;>
      simp [removeFirstById, h, removeFirstById_isSome ls lienId]

/-- Helper: removal drops exactly one record. -/
lemma removeFirstById_length :
    ∀ (ls : List Lien) (lienId : String) (r : List Lien),
      removeFirstById ls lienId = some r → r.length + 1 = ls.length
  | [], _, _, h => by simp [removeFirstById] at h
  | l :: ls, lienId, r, h => by
    by_cases hid : l.id = lienId
    · simp only [removeFirstById, if_pos hid, Option.some.injEq] at h
      subst h
      rfl
    · simp only [removeFirstById, if_neg hid, Option.map_eq_some'] at h
      obtain ⟨r', hr', rfl⟩ := h
      simpa using removeFirstById_length ls lienId r' hr'

/-- Helper: removal keeps only records that were already present. -/
lemma removeFirstById_sub :
    ∀ (ls : List Lien) (lienId : String) (r : List Lien),
      removeFirstById ls lienId = some r → ∀ l ∈ r, l ∈ ls
  | [], _, _, h => by simp [removeFirstById] at h
  | l :: ls, lienId, r, h => by
    by_cases hid : l.id = lienId
    · simp only [removeFirstById, if_pos hid, Option.some.injEq] at h
      subst h
      exact fun x hx => List.mem_cons_of_mem l hx
    · simp only [removeFirstById, if_neg hid, Option.map_eq_some'] at h
      obtain ⟨r', hr', rfl⟩ := h
      intro x hx
      rcases List.mem_cons.mp hx with rfl | hx'
      · exact List.mem_cons_self _ _
      · exact List.mem_cons_of_mem l (removeFirstById_sub ls lienId r' hr' x hx')

/-- C7 amended: deleteLien is a hard delete of the first matching record: it
succeeds exactly when a lien with the given id exists, and on success the
store holds one record fewer, every surviving record was already present,
and the tenant identifier and payments are untouched.  No soft retirement
via the status field takes place. -/
theorem deleteLien_removes_record :
    ∀ (s : ClientState) (lienId : String),
      ((deleteLien s lienId).isSome ↔ ∃ l ∈ s.liens, l.id = lienId) ∧
      ∀ s', deleteLien s lienId = some s' →
        s'.liens.length + 1 = s.liens.length ∧
        (∀ l ∈ s'.liens, l ∈ s.liens) ∧
        s'.tenantId = s.tenantId ∧ s'.payments = s.payments := by
  intro s lienId
  constructor
  · rw [deleteLien, Option.isSome_map']
    exact removeFirstById_isSome s.liens lienId
  · intro s' h
    rw [deleteLien, Option.map_eq_some'] at h
    obtain ⟨r, hr, rfl⟩ := h
    exact ⟨removeFirstById_length s.liens lienId r hr,
      removeFirstById_sub s.liens lienId r hr, rfl, rfl⟩

/-- Witness for C7 amended: applied to the initial client and lien-001, with
the concrete post-deletion state. -/
theorem deleteLien_removes_record_witness :
    mockLiens.tail.length + 1 = initialClient.liens.length ∧
    (⟨DEFAULT_TENANT, mockLiens.tail, mockPayments⟩ : ClientState).tenantId =
      initialClient.tenantId :=
  have h := (deleteLien_removes_record initialClient "lien-001").2
    ⟨DEFAULT_TENANT, mockLiens.tail, mockPayments⟩ (by decide)
  ⟨h.1, h.2.2.1⟩

/-- Modelled from the spec: the DeadlineScheduler and its DeadlineInstance
records are not under src/ (the client only reads derived deadline views), so
the materialized due-date watch is taken from the spec's data model: a
per-lien instance with a due date, the set of day-offsets already alerted
(fired_thresholds), and a PENDING/COMPLETED status (pending flag).  Each
instance carries one notification type (redemption), so emitted thresholds
stand for (lien, threshold, type) notifications.  Dates are whole days. -/
structure DeadlineInstance where
  lien_id : String
  due_date : ℤ
  fired_thresholds : List ℤ
  pending : Bool
deriving Repr, DecidableEq

/-- Modelled from the spec: the default escalation cascade of day-offsets. -/
def sweepThresholds : List ℤ := [90, 60, 30, 14, 7, 3, 1, 0]

/-- Modelled from the spec: one sweep over one instance.  For a PENDING
instance, days_remaining = due_date - today; every threshold T with
days_remaining ≤ T that is not already in fired_thresholds is emitted as a
notification and added to fired_thresholds; when days_remaining < 0 the
instance is marked COMPLETED.  A non-pending instance is untouched. -/
def sweep (today : ℤ) (inst : DeadlineInstance) :
    List ℤ × DeadlineInstance :=
  if inst.pending then
    let remaining := inst.due_date - today
    let fired := sweepThresholds.filter
      (fun th => decide (remaining ≤ th) && !(inst.fired_thresholds.contains th))
    (fired, ⟨inst.lien_id, inst.due_date, inst.fired_thresholds ++ fired,
      decide (0 ≤ remaining)⟩)
  else ([], inst)

/-- Modelled from the spec: a sequence of sweeps (periodic or on-demand, any
dates, including repeats), accumulating every emitted notification. -/
def runSweeps : DeadlineInstance → List ℤ → List ℤ × DeadlineInstance
  | inst, [] => ([], inst)
  | inst, d :: ds =>
    ((sweep d inst).1 ++ (runSweeps (sweep d inst).2 ds).1,
     (runSweeps (sweep d inst).2 ds).2)

/-- Helper: a sweep's resulting ledger is the old one plus its emissions. -/
lemma sweep_fired_eq (today : ℤ) (inst : DeadlineInstance) :
    (sweep today inst).2.fired_thresholds =
      inst.fired_thresholds ++ (sweep today inst).1 := by
  rw [sweep]
  split <;> simp

/-- Helper: one sweep emits each threshold at most once. -/
lemma sweep_emit_nodup (today : ℤ) (inst : DeadlineInstance) :
    ((sweep today inst).1).Nodup := by
  rw [sweep]
  split
  · exact List.Nodup.filter _ (by decide)
  · exact List.nodup_nil

/-- Helper: a sweep never emits a threshold already in the ledger. -/
lemma sweep_emit_fresh (today : ℤ) (inst : DeadlineInstance) :
    ∀ th ∈ (sweep today inst).1, th ∉ inst.fired_thresholds := by
  rw [sweep]
  split
  · intro th hth
    have := List.of_mem_filter hth
    simp only [Bool.and_eq_true, Bool.not_eq_true', decide_eq_true_eq] at this
    simpa using this.2
  · intro th hth
    simp at hth

/-- C4: across every sequence of sweeps, each threshold of a deadline
instance fires at most once (the emitted notification stream has no
duplicate threshold) and never re-fires a threshold already recorded in
fired_thresholds; in particular an instance due 29 days out that is swept
twice on the same day produces exactly one notification for the 30-day
threshold. -/
theorem deadline_thresholds_fire_at_most_once :
    (∀ (inst : DeadlineInstance) (days : List ℤ),
      ((runSweeps inst days).1).Nodup ∧
      ∀ th ∈ (runSweeps inst days).1, th ∉ inst.fired_thresholds) ∧
    ((runSweeps ⟨"lien-ex2", 29, [], true⟩ [0, 0]).1).count 30 = 1 := by
  constructor
  · intro inst days
    induction days generalizing inst with
    | nil => exact ⟨List.nodup_nil, by simp [runSweeps]⟩
    | cons d ds ih =>
      obtain ⟨ihn, ihf⟩ := ih (sweep d inst).2
      have hfeq := sweep_fired_eq d inst
      constructor
      · refine List.Nodup.append (sweep_emit_nodup d inst) ihn ?_
        intro th h1 h2
        exact ihf th h2 (hfeq ▸ List.mem_append_right _ h1)
      · intro th hth
        rcases List.mem_append.mp hth with h | h
        · exact sweep_emit_fresh d inst th h
        · intro hmem
          exact ihf th h (hfeq ▸ List.mem_append_left _ hmem)
  · decide

/-- A JSON-like value, the shape of a parsed fetch response body. -/
inductive Js where
  | null : Js
  | bool : Bool → Js
  | num : ℚ → Js
  | str : String → Js
  | arr : List Js → Js
  | obj : List (String × Js) → Js

/-- Property access on a JSON object. -/
def jsLookup (fields : List (String × Js)) (k : String) : Option Js :=
  (fields.find? (fun e => e.1 = k)).map (fun e => e.2)

/-- The response-shape normalization in ApiClient.getLiens (network branch):
a bare array is returned as is; an object's liens array, else its data.liens
array, is extracted; anything else (including primitives and null, which
fail the object guard, and objects without a liens array) falls through to
the empty-array fallback.  Guards in the source (truthiness, typeof, the
optional chain on data) make every access total, so no branch throws. -/
def getLiensNormalize (response : Js) : List Js :=
  match response with
  | Js.arr xs => xs
  | Js.obj fields =>
    match jsLookup fields "liens" with
    | some (Js.arr xs) => xs
    | _ =>
      match jsLookup fields "data" with
      | some (Js.obj dfields) =>
        match jsLookup dfields "liens" with
        | some (Js.arr ys) => ys
        | _ => []
      | _ => []
  | _ => []

/-- C10: for every response shape, getLiens returns an array — the response
itself when it is a bare array, its liens array, its data.liens array, or
the empty array — and never a non-array value; the normalization is total,
so no response shape makes it throw. -/
theorem getLiens_response_always_array :
    ∀ v : Js,
      (∃ xs, v = Js.arr xs ∧ getLiensNormalize v = xs) ∨
      (∃ fields xs, v = Js.obj fields ∧
        jsLookup fields "liens" = some (Js.arr xs) ∧
        getLiensNormalize v = xs) ∨
      (∃ fields dfields ys, v = Js.obj fields ∧
        jsLookup fields "data" = some (Js.obj dfields) ∧
        jsLookup dfields "liens" = some (Js.arr ys) ∧
        getLiensNormalize v = ys) ∨
      getLiensNormalize v = [] := by
  intro v
  cases v with
  | arr xs => exact Or.inl ⟨xs, rfl, rfl⟩
  | obj fields =>
    simp only [getLiensNormalize]
    split
    · rename_i xs heq
      exact Or.inr (Or.inl ⟨fields, xs, rfl, heq, rfl⟩)
    · split
      · rename_i dfields heq2
        split
        · rename_i ys heq3
          exact Or.inr (Or.inr (Or.inl ⟨fields, dfields, ys, rfl, heq2, heq3, rfl⟩))
        · exact Or.inr (Or.inr (Or.inr rfl))
      · exact Or.inr (Or.inr (Or.inr rfl))
  | null => exact Or.inr (Or.inr (Or.inr rfl))
  | bool b => exact Or.inr (Or.inr (Or.inr rfl))
  | num q => exact Or.inr (Or.inr (Or.inr rfl))
  | str s => exact Or.inr (Or.inr (Or.inr rfl))

/-- The AddLienPage form state.  Text inputs are strings; the numeric inputs
(purchase_amount, interest_rate) and date inputs (sale_date,
redemption_deadline) are none when the input is empty and some value when it
parses; dates are epoch milliseconds as elsewhere. -/
structure LienForm where
  certificate_number : String
  purchase_amount : Option ℚ
  interest_rate : Option ℚ
  sale_date : Option ℤ
  redemption_deadline : Option ℤ
  county : String
  property_address : String
  parcel_id : String
deriving Repr, DecidableEq

/-- The purchase_amount check of validateForm: the input is empty or parses
to a value at most 0. -/
def purchaseAmountSeg (pa : Option ℚ) : List (String × String) :=
  match pa with
  | none => [("purchase_amount", "Purchase amount must be greater than 0")]
  | some a =>
    if a ≤ 0 then
      [("purchase_amount", "Purchase amount must be greater than 0")]
    else []

/-- The interest_rate check of validateForm: required, then range 0..100. -/
def rateSeg (ir : Option ℚ) : List (String × String) :=
  match ir with
  | none => [("interest_rate", "Interest rate is required")]
  | some r =>
    if r < 0 ∨ r > 100 then
      [("interest_rate", "Interest rate must be between 0 and 100")]
    else []

/-- The sale_date check of validateForm: required. -/
def saleSeg (sdo : Option ℤ) : List (String × String) :=
  match sdo with
  | none => [("sale_date", "Sale date is required")]
  | some _ => []

/-- The redemption_deadline check of validateForm: required, and when the
sale date is also present the deadline must be strictly after it. -/
def deadlineSeg (rdo sdo : Option ℤ) : List (String × String) :=
  match rdo with
  | none => [("redemption_deadline", "Redemption deadline is required")]
  | some dl =>
    match sdo with
    | some sd =>
      if dl ≤ sd then
        [("redemption_deadline", "Redemption deadline must be after sale date")]
      else []
    | none => []

/-- AddLienPage.validateForm: builds the newErrors object field by field (at
most one message per field, every failing field reported) and blocks
submission when any error exists.  The embedding returns the entries of
newErrors in source order, one segment per if-block of the source. -/
def validateForm (f : LienForm) : List (String × String) :=
  (if f.certificate_number.trim = "" then
    [("certificate_number", "Certificate number is required")] else []) ++
  purchaseAmountSeg f.purchase_amount ++
  rateSeg f.interest_rate ++
  saleSeg f.sale_date ++
  deadlineSeg f.redemption_deadline f.sale_date ++
  (if f.county.trim = "" then [("county", "County is required")] else []) ++
  (if f.property_address.trim = "" then
    [("property_address", "Property address is required")] else []) ++
  (if f.parcel_id.trim = "" then [("parcel_id", "Parcel ID is required")] else [])

/-- Modelled from the spec: the lien-creation constraints, stated in the
spec's own terms — required fields present, principal greater than 0,
annual rate between 0 and 100, redemption deadline after the purchase
(sale) date.  A field name is violated when its constraint fails. -/
def lienFieldViolated (f : LienForm) (field : String) : Prop :=
  (field = "certificate_number" ∧ f.certificate_number.trim = "") ∨
  (field = "purchase_amount" ∧ ¬ ∃ a, f.purchase_amount = some a ∧ 0 < a) ∨
  (field = "interest_rate" ∧
    ¬ ∃ r, f.interest_rate = some r ∧ 0 ≤ r ∧ r ≤ 100) ∨
  (field = "sale_date" ∧ f.sale_date = none) ∨
  (field = "redemption_deadline" ∧
    (f.redemption_deadline = none ∨
      ∃ dl sd, f.redemption_deadline = some dl ∧ f.sale_date = some sd ∧
        dl ≤ sd)) ∨
  (field = "county" ∧ f.county.trim = "") ∨
  (field = "property_address" ∧ f.property_address.trim = "") ∨
  (field = "parcel_id" ∧ f.parcel_id.trim = "")

/-- Helper: membership of a field name in a conditional one-entry error
segment. -/
lemma mem_ite_err (c : Prop) [Decidable c] (k field msg : String) :
    (field ∈ (if c then [(k, msg)] else []).map Prod.fst) ↔
      (field = k ∧ c) := by
  split <;> simp [*]

/-- Helper: characterization of the purchase_amount error segment. -/
lemma mem_purchase_seg (pa : Option ℚ) (field : String) :
    (field ∈ (purchaseAmountSeg pa).map Prod.fst) ↔
      (field = "purchase_amount" ∧ ¬ ∃ a, pa = some a ∧ 0 < a) := by
  cases pa <;> simp [purchaseAmountSeg, not_lt, and_comm, eq_comm]

/-- Helper: characterization of the interest_rate error segment. -/
lemma mem_rate_seg (ir : Option ℚ) (field : String) :
    (field ∈ (rateSeg ir).map Prod.fst) ↔
      (field = "interest_rate" ∧
        ¬ ∃ r, ir = some r ∧ 0 ≤ r ∧ r ≤ 100) := by
  cases ir <;>
    simp [rateSeg, not_and_or, not_le, and_comm, or_iff_not_imp_left,
      not_lt, eq_comm]

/-- Helper: characterization of the sale_date error segment. -/
lemma mem_sale_seg (sdo : Option ℤ) (field : String) :
    (field ∈ (saleSeg sdo).map Prod.fst) ↔
      (field = "sale_date" ∧ sdo = none) := by
  cases sdo <;> simp [saleSeg]

/-- Helper: characterization of the redemption_deadline error segment. -/
lemma mem_deadline_seg (rdo sdo : Option ℤ) (field : String) :
    (field ∈ (deadlineSeg rdo sdo).map Prod.fst) ↔
      (field = "redemption_deadline" ∧
        (rdo = none ∨
          ∃ dl sd, rdo = some dl ∧ sdo = some sd ∧ dl ≤ sd)) := by
  cases rdo <;> cases sdo <;> simp [deadlineSeg, and_comm, eq_comm]

/-- C9: the reported error fields of validateForm are exactly the violated
lien constraints — every violated constraint is listed, not just the first —
and any input whose redemption deadline is on or before its sale (purchase)
date gets an error naming the redemption_deadline field. -/
theorem validateForm_lists_every_violation :
    (∀ (f : LienForm) (field : String),
      field ∈ (validateForm f).map Prod.fst ↔ lienFieldViolated f field) ∧
    (∀ (f : LienForm) (sd dl : ℤ), f.sale_date = some sd →
      f.redemption_deadline = some dl → dl ≤ sd →
      "redemption_deadline" ∈ (validateForm f).map Prod.fst) := by
  have main : ∀ (f : LienForm) (field : String),
      field ∈ (validateForm f).map Prod.fst ↔ lienFieldViolated f field := by
    intro f field
    obtain ⟨cert, pa, ir, sdo, rdo, co, addr, pid⟩ := f
    simp only [validateForm, lienFieldViolated, List.map_append,
      List.mem_append, mem_ite_err, mem_purchase_seg, mem_rate_seg,
      mem_sale_seg, mem_deadline_seg, or_assoc]
  refine ⟨main, ?_⟩
  intro f sd dl hsd hdl hle
  rw [main f "redemption_deadline"]
  rw [lienFieldViolated]
  exact Or.inr (Or.inr (Or.inr (Or.inr (Or.inl
    ⟨rfl, Or.inr ⟨dl, sd, hdl, hsd, hle⟩⟩))))

/-- Witness for C9: a concrete form whose redemption deadline precedes its
sale date is reported on the redemption_deadline field. -/
theorem validateForm_lists_every_violation_witness :
    "redemption_deadline" ∈
      (validateForm ⟨"MD-2024-1234", some 5000, some 18, some (dateMs 2024 5 15),
        some (dateMs 2024 5 14), "Miami-Dade", "123 Main St", "01-3245"⟩).map
        Prod.fst :=
  validateForm_lists_every_violation.2
    ⟨"MD-2024-1234", some 5000, some 18, some (dateMs 2024 5 15),
      some (dateMs 2024 5 14), "Miami-Dade", "123 Main St", "01-3245"⟩
    (dateMs 2024 5 15) (dateMs 2024 5 14) rfl rfl (by decide)

end LienOS
